import Mathlib

/-!
Verification of the PDF-generation pipeline of the coloring-book repository.

The development shallowly embeds:
  * the document composer and publisher of
    `backend/src/services/pdfService.ts` (`generateColoringBookPDF`,
    source lines 38-252), and
  * the job-tracking controller of
    `backend/src/controllers/pdfController.ts` (`generatePDF`,
    `getPdfStatus`).

Stateful drawing on the PDFKit document is modelled as explicit state
passing over a `DocState`; network and storage effects are modelled as
oracles plus an explicit event trace.
-/

deriving instance DecidableEq for Except

namespace ColoringBook

/-!
### String helpers

Kernel-evaluable models of the JavaScript string operations the source uses
(`startsWith`, `split`, `parseInt`), defined by structural recursion over the
character list. -/

/-- `a` is a prefix of `b` (on character lists). -/
def prefixOfChars : List Char → List Char → Bool
  | [], _ => true
  | _ :: _, [] => false
  | a :: as, b :: bs => a = b && prefixOfChars as bs

/-- JavaScript `s.startsWith(p)`. -/
def strStartsWith (s p : String) : Bool :=
  prefixOfChars p.data s.data

/-- JavaScript `s.split(c)` for a one-character separator (on character
lists). -/
def splitOnChar (c : Char) : List Char → List (List Char)
  | [] => [[]]
  | a :: as =>
      match splitOnChar c as with
      | [] => [[a]]
      | t :: ts => if a = c then [] :: t :: ts else (a :: t) :: ts

/-- JavaScript `s.split(c)` for a one-character separator. -/
def strSplitOnChar (c : Char) (s : String) : List String :=
  (splitOnChar c s.data).map (fun l => String.mk l)

/-- JavaScript `parseInt(s, 10)`: the longest digit prefix as a number,
`none` for `NaN` (leading sign/whitespace handling omitted). -/
def parseIntDecimal (s : String) : Option Nat :=
  let ds := s.data.takeWhile (fun c => c.isDigit)
  if ds = [] then none
  else some (ds.foldl (fun acc c => acc * 10 + (c.toNat - 48)) 0)

/-- Text alignment, as passed to PDFKit's `text(..., { align })`. -/
inductive Align
  | left
  | center
  deriving DecidableEq, Repr

/-- One drawn item on a page: either a text run (content string, font size,
alignment) or the embedded image for a given input index. -/
inductive Content
  | text (s : String) (size : Nat) (a : Align)
  | image (idx : Nat)
  deriving DecidableEq, Repr

/-- PDFKit document state: the pages already completed by `addPage`, and the
current page that drawing commands append to.  `new PDFDocument` starts with
one (empty) current page. -/
structure DocState where
  finished : List (List Content)
  current : List Content
  deriving DecidableEq, Repr

/-- A drawing command (`doc.text` / `doc.image`) appends to the current page. -/
def drawC (c : Content) (d : DocState) : DocState :=
  ⟨d.finished, d.current ++ [c]⟩

/-- `doc.addPage()`: the current page is completed and a fresh page begins. -/
def addPage (d : DocState) : DocState :=
  ⟨d.finished ++ [d.current], []⟩

/-- `doc.end()`: the document consists of the completed pages followed by the
final current page. -/
def closeDoc (d : DocState) : List (List Content) :=
  d.finished ++ [d.current]

/-- Outcome of handling one image URL inside the loop of
`generateColoringBookPDF` (source lines 86-204):
  * `ok` — the bytes were obtained and `doc.image` succeeded;
  * `resolveFail` — obtaining the bytes threw (before any `addPage` of the
    loop body ran), landing in the `catch` at line 190;
  * `decodeFail` — the bytes were obtained, the loop body's `addPage` ran,
    and then `doc.image` threw, landing in the same `catch`. -/
inductive ImgOutcome
  | ok
  | resolveFail
  | decodeFail
  deriving DecidableEq, Repr

/-- The cover page drawn at source lines 59-83: title (28pt bold, centered),
fixed subtitle, page-count line, static instructions block, and the cover's
own page number `Page 1 of N+1`. -/
def coverPage (title : String) (n : Nat) : List Content :=
  [ Content.text title 28 Align.center
  , Content.text "Created with Coloring Book SPA" 14 Align.center
  , Content.text ("Contains " ++ toString n ++ " pages to color") 14 Align.center
  , Content.text "Instructions:" 12 Align.left
  , Content.text "1. Print this coloring book on your favorite paper" 10 Align.left
  , Content.text "2. Use colored pencils, markers, or crayons to color the pages" 10 Align.left
  , Content.text "3. Be creative and have fun!" 10 Align.left
  , Content.text ("Page 1 of " ++ toString (n + 1)) 8 Align.center ]

/-- The footer drawn at source lines 187-188 for the page of input image `i`
(0-indexed), in a document over `n` input images. -/
def footerText (n i : Nat) : Content :=
  Content.text ("Page " ++ toString (i + 2) ++ " of " ++ toString (n + 1)) 8 Align.center

/-- The two placeholder text runs drawn in the `catch` branch
(source lines 196-202) for failing input image `i` (0-indexed). -/
def placeholderTitle (i : Nat) : Content :=
  Content.text ("Unable to process image " ++ toString (i + 1)) 14 Align.center

def placeholderBody : Content :=
  Content.text "This image could not be included in your coloring book." 10 Align.center

/-- One iteration of the image loop (source lines 86-204) for input index `i`
over `n` total images.  In the success path the `if (i > 0)` at line 169 calls
`addPage` in both branches; in the `catch` path the `if (i > 0)` at line 193
calls `addPage` only for `i > 0`. -/
def processOne (n i : Nat) (o : ImgOutcome) (d : DocState) : DocState :=
  match o with
  | ImgOutcome.ok =>
      let d := addPage d
      let d := drawC (Content.image i) d
      drawC (footerText n i) d
  | ImgOutcome.resolveFail =>
      let d := if i > 0 then addPage d else d
      let d := drawC (placeholderTitle i) d
      drawC placeholderBody d
  | ImgOutcome.decodeFail =>
      let d := addPage d
      let d := if i > 0 then addPage d else d
      let d := drawC (placeholderTitle i) d
      drawC placeholderBody d

/-- The image loop from input index `i` onward. -/
def processFrom (n : Nat) (i : Nat) (outs : List ImgOutcome) (d : DocState) : DocState :=
  match outs with
  | [] => d
  | o :: rest => processFrom n (i + 1) rest (processOne n i o d)

/-- The full page-composition of `generateColoringBookPDF`: cover page drawn
on the initial page, then the image loop, then `doc.end()`. -/
def composePages (title : String) (outs : List ImgOutcome) : List (List Content) :=
  closeDoc (processFrom outs.length 0 outs ⟨[], coverPage title outs.length⟩)

example :
    composePages "T" [ImgOutcome.ok] =
      [coverPage "T" 1, [Content.image 0, footerText 1 0]] := by decide

example : (composePages "T" [ImgOutcome.resolveFail]).length = 1 := by decide

example : (composePages "T" [ImgOutcome.ok, ImgOutcome.decodeFail]).length = 4 := by
  decide

/-- The page produced for a successfully processed image `i`. -/
def okPage (n i : Nat) : List Content :=
  [Content.image i, footerText n i]

/-- The page produced by the placeholder branch for failing image `i`. -/
def placeholderPage (i : Nat) : List Content :=
  [placeholderTitle i, placeholderBody]

/-- The page the loop body yields for input index `i`, given its outcome, in
the well-behaved cases (see `goodAt`). -/
def pageFor (n i : Nat) : ImgOutcome → List Content
  | ImgOutcome.ok => okPage n i
  | ImgOutcome.resolveFail => placeholderPage i
  | ImgOutcome.decodeFail => placeholderPage i

/-- The sequence of image pages for outcomes starting at input index `i`. -/
def pagesFrom (n i : Nat) : List ImgOutcome → List (List Content)
  | [] => []
  | o :: rest => pageFor n i o :: pagesFrom n (i + 1) rest

/-- The condition under which the loop body consumes exactly one fresh page
for index `i`: the first image must not fail during resolution (the `catch`
skips `addPage` when `i = 0`), and later images must not fail during decoding
(`addPage` would then run twice). -/
def goodAt (i : Nat) (o : ImgOutcome) : Prop :=
  (i = 0 → o ≠ ImgOutcome.resolveFail) ∧ (i ≠ 0 → o ≠ ImgOutcome.decodeFail)

instance (i : Nat) (o : ImgOutcome) : Decidable (goodAt i o) := by
  unfold goodAt
  infer_instance

/-- `goodAt` holding along a suffix of outcomes starting at index `i`. -/
def goodFrom (i : Nat) : List ImgOutcome → Prop
  | [] => True
  | o :: rest => goodAt i o ∧ goodFrom (i + 1) rest

instance goodFromDecidable : (i : Nat) → (outs : List ImgOutcome) →
    Decidable (goodFrom i outs)
  | _, [] => Decidable.isTrue trivial
  | i, _o :: rest =>
      have : Decidable (goodFrom (i + 1) rest) := goodFromDecidable (i + 1) rest
      inferInstanceAs (Decidable (_ ∧ _))

theorem processOne_goodAt (n i : Nat) (o : ImgOutcome) (f : List (List Content))
    (cur : List Content) (h : goodAt i o) :
    processOne n i o ⟨f, cur⟩ = ⟨f ++ [cur], pageFor n i o⟩ := by
  cases o with
  | ok => simp [processOne, addPage, drawC, pageFor, okPage]
  | resolveFail =>
      have hi : i ≠ 0 := fun h0 => h.1 h0 rfl
      have hpos : i > 0 := Nat.pos_of_ne_zero hi
      simp [processOne, addPage, drawC, pageFor, placeholderPage, hpos]
  | decodeFail =>
      have hi : i = 0 := by
        by_contra h0
        exact h.2 h0 rfl
      subst hi
      simp [processOne, addPage, drawC, pageFor, placeholderPage]

/-- Under `goodFrom`, the loop appends exactly one page per image, in input
order. -/
theorem processFrom_goodFrom (n : Nat) (outs : List ImgOutcome) :
    ∀ (i : Nat) (f : List (List Content)) (cur : List Content), goodFrom i outs →
      closeDoc (processFrom n i outs ⟨f, cur⟩) = f ++ cur :: pagesFrom n i outs := by
  induction outs with
  | nil =>
      intro i f cur _
      simp [processFrom, closeDoc, pagesFrom]
  | cons o rest ih =>
      intro i f cur h
      show closeDoc (processFrom n (i + 1) rest (processOne n i o ⟨f, cur⟩)) = _
      rw [processOne_goodAt n i o f cur h.1]
      rw [ih (i + 1) (f ++ [cur]) (pageFor n i o) h.2]
      simp [pagesFrom]

theorem pagesFrom_length (n : Nat) (outs : List ImgOutcome) :
    ∀ i, (pagesFrom n i outs).length = outs.length := by
  induction outs with
  | nil => intro i; simp [pagesFrom]
  | cons _o rest ih => intro i; simp [pagesFrom, ih (i + 1)]

theorem pagesFrom_get? (n : Nat) (outs : List ImgOutcome) :
    ∀ (i k : Nat) (hk : k < outs.length),
      (pagesFrom n i outs).get? k = some (pageFor n (i + k) (outs.get ⟨k, hk⟩)) := by
  induction outs with
  | nil =>
      intro i k hk
      exact absurd hk (by simp)
  | cons o rest ih =>
      intro i k hk
      cases k with
      | zero => simp [pagesFrom]
      | succ k' =>
          have hk' : k' < rest.length := by simpa using hk
          have := ih (i + 1) k' hk'
          have harith : i + 1 + k' = i + (k' + 1) := by omega
          simp only [pagesFrom, List.get?_cons_succ, this, harith]
          rfl

/-- One loop iteration only ever appends to the document state: its effect on
`⟨f, cur⟩` is the effect on `⟨[], cur⟩` with `f` prepended to the finished
pages. -/
theorem processOne_shift (n i : Nat) (o : ImgOutcome) (f : List (List Content))
    (cur : List Content) :
    processOne n i o ⟨f, cur⟩ =
      ⟨f ++ (processOne n i o ⟨[], cur⟩).finished,
        (processOne n i o ⟨[], cur⟩).current⟩ := by
  cases o <;> by_cases hi : i > 0 <;>
    simp [processOne, addPage, drawC, hi]

/-- Finished pages accumulated so far are preserved verbatim by the rest of
the loop. -/
theorem processFrom_shift (n : Nat) (outs : List ImgOutcome) :
    ∀ (i : Nat) (f : List (List Content)) (cur : List Content),
      processFrom n i outs ⟨f, cur⟩ =
        ⟨f ++ (processFrom n i outs ⟨[], cur⟩).finished,
          (processFrom n i outs ⟨[], cur⟩).current⟩ := by
  induction outs with
  | nil =>
      intro i f cur
      simp [processFrom]
  | cons o rest ih =>
      intro i f cur
      show processFrom n (i + 1) rest (processOne n i o ⟨f, cur⟩) =
        ⟨f ++ (processFrom n (i + 1) rest (processOne n i o ⟨[], cur⟩)).finished,
          (processFrom n (i + 1) rest (processOne n i o ⟨[], cur⟩)).current⟩
      rw [processOne_shift n i o f cur]
      rw [ih (i + 1) (f ++ (processOne n i o ⟨[], cur⟩).finished)
        ((processOne n i o ⟨[], cur⟩).current)]
      have he : processOne n i o ⟨[], cur⟩ =
          (⟨(processOne n i o ⟨[], cur⟩).finished,
            (processOne n i o ⟨[], cur⟩).current⟩ : DocState) := rfl
      conv_rhs => rw [he]
      rw [ih (i + 1) ((processOne n i o ⟨[], cur⟩).finished)
        ((processOne n i o ⟨[], cur⟩).current)]
      simp [List.append_assoc]

theorem closeDoc_processFrom_shift (n : Nat) (outs : List ImgOutcome) (i : Nat)
    (f : List (List Content)) (cur : List Content) :
    closeDoc (processFrom n i outs ⟨f, cur⟩) =
      f ++ closeDoc (processFrom n i outs ⟨[], cur⟩) := by
  rw [processFrom_shift]
  simp [closeDoc]

/-- From index 1 onward every loop iteration begins with `addPage`, so the
current page is completed untouched. -/
theorem processFrom_keeps_current (n : Nat) (outs : List ImgOutcome) :
    ∀ (i : Nat) (f : List (List Content)) (cur : List Content), 1 ≤ i →
      ∃ r, closeDoc (processFrom n i outs ⟨f, cur⟩) = f ++ cur :: r := by
  induction outs with
  | nil =>
      intro i f cur _
      exact ⟨[], by simp [processFrom, closeDoc]⟩
  | cons o rest ih =>
      intro i f cur hi
      have hpos : i > 0 := hi
      cases o with
      | ok =>
          have hp : processOne n i ImgOutcome.ok ⟨f, cur⟩ = ⟨f ++ [cur], okPage n i⟩ := by
            simp [processOne, addPage, drawC, okPage]
          show ∃ r, closeDoc (processFrom n (i + 1) rest (processOne n i ImgOutcome.ok ⟨f, cur⟩)) = _
          rw [hp]
          obtain ⟨r', hr⟩ := ih (i + 1) (f ++ [cur]) (okPage n i) (by omega)
          exact ⟨okPage n i :: r', by simp [hr]⟩
      | resolveFail =>
          have hp : processOne n i ImgOutcome.resolveFail ⟨f, cur⟩ =
              ⟨f ++ [cur], placeholderPage i⟩ := by
            simp [processOne, addPage, drawC, placeholderPage, hpos]
          show ∃ r, closeDoc (processFrom n (i + 1) rest
            (processOne n i ImgOutcome.resolveFail ⟨f, cur⟩)) = _
          rw [hp]
          obtain ⟨r', hr⟩ := ih (i + 1) (f ++ [cur]) (placeholderPage i) (by omega)
          exact ⟨placeholderPage i :: r', by simp [hr]⟩
      | decodeFail =>
          have hp : processOne n i ImgOutcome.decodeFail ⟨f, cur⟩ =
              ⟨f ++ [cur, []], placeholderPage i⟩ := by
            simp [processOne, addPage, drawC, placeholderPage, hpos]
          show ∃ r, closeDoc (processFrom n (i + 1) rest
            (processOne n i ImgOutcome.decodeFail ⟨f, cur⟩)) = _
          rw [hp]
          obtain ⟨r', hr⟩ := ih (i + 1) (f ++ [cur, []]) (placeholderPage i) (by omega)
          exact ⟨[] :: placeholderPage i :: r', by rw [hr]; simp⟩

/-- The content drawn on the initial page before the loop (the cover) stays a
prefix of the first page of the finished document. -/
theorem processFrom_head (n : Nat) (outs : List ImgOutcome) :
    ∀ (i : Nat) (cur : List Content),
      ∃ rest, (closeDoc (processFrom n i outs ⟨[], cur⟩)).head? = some (cur ++ rest) := by
  induction outs with
  | nil =>
      intro i cur
      exact ⟨[], by simp [processFrom, closeDoc]⟩
  | cons o rest ih =>
      intro i cur
      show ∃ r, (closeDoc (processFrom n (i + 1) rest (processOne n i o ⟨[], cur⟩))).head? = _
      cases o with
      | ok =>
          have hp : processOne n i ImgOutcome.ok ⟨[], cur⟩ = ⟨[cur], okPage n i⟩ := by
            simp [processOne, addPage, drawC, okPage]
          rw [hp, closeDoc_processFrom_shift]
          exact ⟨[], by simp⟩
      | resolveFail =>
          by_cases hi : i > 0
          · have hp : processOne n i ImgOutcome.resolveFail ⟨[], cur⟩ =
                ⟨[cur], placeholderPage i⟩ := by
              simp [processOne, addPage, drawC, placeholderPage, hi]
            rw [hp, closeDoc_processFrom_shift]
            exact ⟨[], by simp⟩
          · have hp : processOne n i ImgOutcome.resolveFail ⟨[], cur⟩ =
                ⟨[], cur ++ [placeholderTitle i, placeholderBody]⟩ := by
              simp [processOne, addPage, drawC, hi]
            rw [hp]
            obtain ⟨r', hr⟩ := ih (i + 1) (cur ++ [placeholderTitle i, placeholderBody])
            exact ⟨[placeholderTitle i, placeholderBody] ++ r', by
              simpa [List.append_assoc] using hr⟩
      | decodeFail =>
          by_cases hi : i > 0
          · have hp : processOne n i ImgOutcome.decodeFail ⟨[], cur⟩ =
                ⟨[cur, []], placeholderPage i⟩ := by
              simp [processOne, addPage, drawC, placeholderPage, hi]
            rw [hp, closeDoc_processFrom_shift]
            exact ⟨[], by simp⟩
          · have hp : processOne n i ImgOutcome.decodeFail ⟨[], cur⟩ =
                ⟨[cur], placeholderPage i⟩ := by
              simp [processOne, addPage, drawC, placeholderPage, hi]
            rw [hp, closeDoc_processFrom_shift]
            exact ⟨[], by simp⟩

/-- Every successfully processed image yields a page consisting of exactly
that image and its footer, whatever the other outcomes are. -/
theorem okPage_mem_processFrom (n : Nat) (outs : List ImgOutcome) :
    ∀ (i : Nat) (f : List (List Content)) (cur : List Content)
      (j : Nat) (hj : j < outs.length),
      outs.get ⟨j, hj⟩ = ImgOutcome.ok →
      okPage n (i + j) ∈ closeDoc (processFrom n i outs ⟨f, cur⟩) := by
  induction outs with
  | nil =>
      intro i f cur j hj
      exact absurd hj (by simp)
  | cons o rest ih =>
      intro i f cur j hj hok
      cases j with
      | zero =>
          have ho : o = ImgOutcome.ok := by simpa using hok
          subst ho
          show okPage n (i + 0) ∈
            closeDoc (processFrom n (i + 1) rest (processOne n i ImgOutcome.ok ⟨f, cur⟩))
          have hp : processOne n i ImgOutcome.ok ⟨f, cur⟩ = ⟨f ++ [cur], okPage n i⟩ := by
            simp [processOne, addPage, drawC, okPage]
          rw [hp]
          obtain ⟨r, hr⟩ := processFrom_keeps_current n rest (i + 1) (f ++ [cur])
            (okPage n i) (by omega)
          rw [hr]
          simp
      | succ j' =>
          have hj' : j' < rest.length := by simpa using hj
          have hok' : rest.get ⟨j', hj'⟩ = ImgOutcome.ok := by simpa using hok
          have harith : i + (j' + 1) = (i + 1) + j' := by omega
          rw [harith]
          exact ih (i + 1) (processOne n i o ⟨f, cur⟩).finished
            (processOne n i o ⟨f, cur⟩).current j' hj' hok'

/-!
## Image Resolver (`pdfService.ts`, source lines 95-165)

The resolution of one image URL inside the loop: the data-URI check, the
bucket/key parsing (path-style in development with a configured endpoint,
virtual-hosted-style otherwise), the direct S3 read, and the HTTP fallback
with a 10-second timeout.  Network and storage reads are oracles in
`ResolveEnv`; the I/O the resolver performs is recorded as an `REvent`
trace. -/

/-- One observable I/O action of the resolver. -/
inductive REvent
  | s3Get (bucket key : String)
  | httpGet (url : String) (timeoutMs : Nat)
  deriving DecidableEq, Repr

/-- Environment of the resolver: configuration and I/O oracles. -/
structure ResolveEnv where
  /-- `NODE_ENV === 'development' && process.env.AWS_ENDPOINT` is set. -/
  devMode : Bool
  /-- `process.env.S3_PROCESSED_BUCKET`. -/
  processedBucket : Option String
  /-- `Buffer.from(payload, 'base64')`, kept abstract as an oracle. -/
  b64 : String → List Nat
  /-- `s3.getObject({Bucket, Key})`: bytes, or a thrown error (an empty
  response body is folded into the error case, line 152). -/
  s3Get : String → String → Except String (List Nat)
  /-- `axios.get(url, { timeout })` returning the body bytes. -/
  httpGet : String → Nat → Except String (List Nat)

/-- Splits a character list at the first occurrence of `://`. -/
def splitSchemeAux : List Char → Option (List Char × List Char)
  | [] => none
  | ':' :: '/' :: '/' :: rest => some ([], rest)
  | a :: as =>
      match splitSchemeAux as with
      | none => none
      | some (pre, post) => some (a :: pre, post)

/-- Simplified model of `new URL(...)`: yields `(hostname, pathname)`, or
`none` when the string lacks a `scheme://host` shape (the constructor
throws). -/
def parseUrl (url : String) : Option (String × String) :=
  match splitSchemeAux url.data with
  | none => none
  | some (scheme, rest) =>
      if scheme = [] then none
      else
        let hostport := rest.takeWhile (fun c => c ≠ '/')
        let path := rest.drop hostport.length
        let host := hostport.takeWhile (fun c => c ≠ ':')
        if host = [] then none
        else some (String.mk host, if path = [] then "/" else String.mk path)

/-- JavaScript `pathname.startsWith('/') ? pathname.slice(1) : pathname`. -/
def stripLeadSlash (p : String) : String :=
  match p.data with
  | '/' :: rest => String.mk rest
  | _ => p

/-- Path-style parsing used for the LocalStack endpoint (source lines
112-114): the first path segment is the bucket, the rest is the key. -/
def pathStyleParse (path : String) : String × String :=
  let pathParts := strSplitOnChar '/' path
  (pathParts.getD 1 "", String.intercalate "/" (pathParts.drop 2))

/-- Virtual-hosted-style parsing used for production S3 URLs (source lines
120-135), with its three host-shape cases and the configured-bucket
default. -/
def virtualHostedParse (processedBucket host path : String) : String × String :=
  let hostParts := strSplitOnChar '.' host
  if hostParts.getD 1 "" = "s3" ∧ hostParts.getD 2 "" = "amazonaws" then
    (hostParts.getD 0 "", stripLeadSlash path)
  else if hostParts.getD 0 "" = "s3" then
    let pathParts := strSplitOnChar '/' path
    (pathParts.getD 1 "", String.intercalate "/" (pathParts.drop 2))
  else
    (processedBucket, stripLeadSlash path)

/-- Dispatch between the two parsing styles (source lines 109-138). -/
def parseBucketKey (env : ResolveEnv) (host path : String) : String × String :=
  if env.devMode then pathStyleParse path
  else virtualHostedParse (env.processedBucket.getD "coloringbook-processed") host path

/-- Resolution of one image reference (source lines 95-165): data URIs are
decoded inline; other references are parsed as bucket/key and read from S3;
any throw out of the parse-and-read block falls back to an HTTP GET of the
same URL with a 10000 ms timeout.  Returns the result and the I/O trace. -/
def resolveImage (env : ResolveEnv) (url : String) :
    Except String (List Nat) × List REvent :=
  if strStartsWith url "data:image" then
    match (strSplitOnChar ',' url).get? 1 with
    | some payload => (Except.ok (env.b64 payload), [])
    | none => (Except.error "malformed data URI", [])
  else
    match parseUrl url with
    | some (host, path) =>
        let bk := parseBucketKey env host path
        match env.s3Get bk.1 bk.2 with
        | Except.ok bytes => (Except.ok bytes, [REvent.s3Get bk.1 bk.2])
        | Except.error _ =>
            (env.httpGet url 10000, [REvent.s3Get bk.1 bk.2, REvent.httpGet url 10000])
    | none => (env.httpGet url 10000, [REvent.httpGet url 10000])

/-!
## Artifact Publisher (`pdfService.ts`, source lines 206-251)

After composition the document is written to a temp file, uploaded to the
final-PDFs bucket, the temp file is unlinked, and a URL is built; the outer
`catch` (line 248) rethrows any error.  The filesystem/storage actions are
recorded as a `GEvent` trace. -/

/-- An observable filesystem/storage action of `generateColoringBookPDF`. -/
inductive GEvent
  | writeTemp (pdfId : String)
  | s3Upload (bucket key : String)
  | unlink (pdfId : String)
  deriving DecidableEq, Repr

/-- A thrown JavaScript value: an `Error` object with a message, or any other
value. -/
inductive JsError
  | errorObj (msg : String)
  | other
  deriving DecidableEq, Repr

/-- Environment of the generation pipeline around composition. -/
structure SvcEnv where
  /-- `NODE_ENV === 'development' && process.env.AWS_ENDPOINT` is set. -/
  devMode : Bool
  /-- `process.env.AWS_ENDPOINT`. -/
  endpoint : String
  /-- `process.env.S3_FINAL_BUCKET`. -/
  finalBucket : Option String
  /-- Outcome of `s3.upload(params).promise()`. -/
  uploadResult : Except JsError String

/-- Result of one run of `generateColoringBookPDF`. -/
structure GenOut where
  /-- The returned PDF URL, or the rethrown error. -/
  result : Except JsError String
  /-- The composed document. -/
  pages : List (List Content)
  /-- The filesystem/storage trace. -/
  events : List GEvent
  deriving Repr

/-- `generateColoringBookPDF` (source lines 38-252): compose the pages, write
the temp PDF, upload it under `final-pdfs/{pdfId}.pdf`, unlink the temp file
after a successful upload, and return the environment-dependent URL; an
upload failure is rethrown by the outer `catch` without deleting the temp
file and without a retry. -/
def generateColoringBookPDF (env : SvcEnv) (pdfId : String) (title : String)
    (outs : List ImgOutcome) : GenOut :=
  let pages := composePages title outs
  let bucket := env.finalBucket.getD "coloringbook-final-pdfs"
  let key := "final-pdfs/" ++ pdfId ++ ".pdf"
  match env.uploadResult with
  | Except.ok _ =>
      let url :=
        if env.devMode then env.endpoint ++ "/" ++ bucket ++ "/" ++ key
        else "https://" ++ bucket ++ ".s3.amazonaws.com/" ++ key
      ⟨Except.ok url, pages,
        [GEvent.writeTemp pdfId, GEvent.s3Upload bucket key, GEvent.unlink pdfId]⟩
  | Except.error e =>
      ⟨Except.error e, pages, [GEvent.writeTemp pdfId, GEvent.s3Upload bucket key]⟩

/-!
## Job Tracker (`backend/src/controllers/pdfController.ts`)

The `generatePDF` handler: validation, creation of the in-memory job record,
the 202 response, the same-tick move to `processing`, the awaited call into
the service, and the terminal transition.  Each mutation of the job record
is recorded both as an event and as a snapshot of the record. -/

/-- `MIN_IMAGES_REQUIRED = parseInt(process.env.MIN_IMAGES_REQUIRED || '8', 10)`
(source lines 8-9); `none` models a `NaN` parse. -/
def minImagesRequired (envVal : Option String) : Option Nat :=
  parseIntDecimal (envVal.getD "8")

/-- Job status values of the `pdfJobs` table. -/
inductive Status
  | pending
  | processing
  | completed
  | failed
  deriving DecidableEq, Repr

/-- One entry of the in-memory `pdfJobs` record. -/
structure Job where
  status : Status
  userId : Option String
  imageUrls : List String
  pdfUrl : Option String
  title : String
  message : Option String
  deriving DecidableEq, Repr

/-- An observable step of the `generatePDF` handler, in execution order. -/
inductive CEvent
  /-- `pdfJobs[jobId] = {...}` with the given initial status. -/
  | createJob (initial : Status)
  /-- `res.status(code).json(...)`; `hasJobId` records whether the body
  carries the job identifier. -/
  | respond (code : Nat) (hasJobId : Bool)
  /-- `pdfJobs[jobId].status = s`. -/
  | setStatus (s : Status)
  /-- `pdfJobs[jobId].pdfUrl = url`. -/
  | setPdfUrl (url : String)
  /-- `pdfJobs[jobId].message = m`. -/
  | setMessage (m : String)
  /-- The suspension point `await generateColoringBookPDF(...)`. -/
  | awaitGenerate
  deriving DecidableEq, Repr

/-- `error instanceof Error ? error.message : 'Unknown error'`
(source line 80). -/
def errMessage : JsError → String
  | JsError.errorObj m => m
  | JsError.other => "Unknown error"

/-- Result of one run of the `generatePDF` handler. -/
structure HandlerOut where
  responseCode : Nat
  responseMessage : String
  /-- The job record at the end of the run (`none` when validation failed
  before any record was created). -/
  finalJob : Option Job
  /-- The successive states of the job record, one per mutation. -/
  jobSnapshots : List Job
  events : List CEvent
  deriving DecidableEq, Repr

/-- The `generatePDF` handler (source lines 28-84).  `imageUrls = none`
models a missing/non-array body field; `genResult` is the outcome of the
awaited `generateColoringBookPDF` call. -/
def generatePDF (minImages : Nat) (userId : Option String)
    (imageUrls : Option (List String)) (title : Option String)
    (genResult : Except JsError String) : HandlerOut :=
  match imageUrls with
  | none =>
      ⟨400, "No image URLs provided", none, [], [CEvent.respond 400 false]⟩
  | some urls =>
      if urls.isEmpty then
        ⟨400, "No image URLs provided", none, [], [CEvent.respond 400 false]⟩
      else if urls.length < minImages then
        ⟨400, "At least " ++ toString minImages ++
            " images are required to create a coloring book",
          none, [], [CEvent.respond 400 false]⟩
      else
        let t := title.getD "My Coloring Book"
        let j0 : Job := ⟨Status.pending, userId, urls, none, t, none⟩
        let j1 : Job := { j0 with status := Status.processing }
        match genResult with
        | Except.ok url =>
            let j2 : Job := { j1 with status := Status.completed, pdfUrl := some url }
            ⟨202, "PDF generation started", some j2, [j0, j1, j2],
              [CEvent.createJob Status.pending, CEvent.respond 202 true,
                CEvent.setStatus Status.processing, CEvent.awaitGenerate,
                CEvent.setStatus Status.completed, CEvent.setPdfUrl url]⟩
        | Except.error e =>
            let j2 : Job :=
              { j1 with status := Status.failed, message := some (errMessage e) }
            ⟨202, "PDF generation started", some j2, [j0, j1, j2],
              [CEvent.createJob Status.pending, CEvent.respond 202 true,
                CEvent.setStatus Status.processing, CEvent.awaitGenerate,
                CEvent.setStatus Status.failed, CEvent.setMessage (errMessage e)]⟩

/-- The body of a 200 response of `getPdfStatus`. -/
structure PollResponse where
  status : Status
  message : Option String
  pdfUrl : Option String
  deriving DecidableEq, Repr

/-- The `getPdfStatus` handler (source lines 89-119): 404 for a falsy job id
or an unknown job, otherwise a 200 body that carries `pdfUrl` only when the
job is completed and has one. -/
def getPdfStatus (jobId : String) (lookup : String → Option Job) :
    Nat × Option PollResponse :=
  if jobId = "" then (404, none)
  else
    match lookup jobId with
    | none => (404, none)
    | some j =>
        (200, some ⟨j.status, j.message,
          if j.status = Status.completed then j.pdfUrl else none⟩)

/-- The status events of a handler trace, in order. -/
def statusEvents (evs : List CEvent) : List Status :=
  evs.filterMap fun e =>
    match e with
    | CEvent.setStatus s => some s
    | _ => none

/-- Whether a handler event is a response carrying the job identifier. -/
def isRespondWithJobId : CEvent → Bool
  | CEvent.respond _ true => true
  | _ => false

/-!
## Claim theorems
-/

/-- C1 (amended): for every input sequence of N image references in which the
first image does not fail during resolution and no image after the first
fails during decoding, the composed document has exactly N+1 pages, and the
content of page k+2 (list index k+1; the cover is page 1) corresponds to
input image k for all k in [0, N): the image itself with its footer when it
was processed successfully, and the placeholder naming position k
otherwise. -/
theorem c1_order_preservation (title : String) (outs : List ImgOutcome)
    (h : goodFrom 0 outs) :
    (composePages title outs).length = outs.length + 1 ∧
      ∀ (k : Nat) (hk : k < outs.length),
        (composePages title outs).get? (k + 1) =
          some (pageFor outs.length k (outs.get ⟨k, hk⟩)) := by
  have hc := processFrom_goodFrom outs.length outs 0 [] (coverPage title outs.length) h
  unfold composePages
  rw [hc]
  refine ⟨by simp [pagesFrom_length], ?_⟩
  intro k hk
  have hp := pagesFrom_get? outs.length outs 0 k hk
  simpa using hp

/-- Witness for C1: a concrete three-image run (second image unresolvable)
has 4 pages and page 3 is the placeholder for input image 1. -/
theorem c1_order_preservation_witness :
    goodFrom 0 [ImgOutcome.ok, ImgOutcome.resolveFail, ImgOutcome.ok] ∧
      (composePages "Test Book"
        [ImgOutcome.ok, ImgOutcome.resolveFail, ImgOutcome.ok]).length = 3 + 1 ∧
      (composePages "Test Book"
          [ImgOutcome.ok, ImgOutcome.resolveFail, ImgOutcome.ok]).get? 2 =
        some (pageFor 3 1 ImgOutcome.resolveFail) := by
  have h := c1_order_preservation "Test Book"
    [ImgOutcome.ok, ImgOutcome.resolveFail, ImgOutcome.ok] (by decide)
  exact ⟨by decide, h.1, h.2 1 (by decide)⟩

/-- Counterexample to C1 as stated: for the one-element input sequence whose
image fails to resolve, the composed document has 1 page, not N+1 = 2 — the
placeholder is drawn onto the cover page. -/
theorem c1_counterexample :
    ¬ (composePages "My Coloring Book" [ImgOutcome.resolveFail]).length = 1 + 1 := by
  decide

/-- C2 (code behavior at the failing input): for a single image reference
whose resolution fails, no new page is started — the placeholder lands on
the cover page and the document has 1 page instead of 2 — while the job
still reaches `completed`: the service returns the PDF URL and the handler,
fed that result, records status `completed`. -/
theorem c2_failing_input_behavior :
    (composePages "My Coloring Book" [ImgOutcome.resolveFail]).length = 1 ∧
      (composePages "My Coloring Book" [ImgOutcome.resolveFail]).get? 0 =
        some (coverPage "My Coloring Book" 1 ++ [placeholderTitle 0, placeholderBody]) ∧
      (generateColoringBookPDF ⟨false, "", none, Except.ok "loc"⟩ "job1"
          "My Coloring Book" [ImgOutcome.resolveFail]).result =
        Except.ok "https://coloringbook-final-pdfs.s3.amazonaws.com/final-pdfs/job1.pdf" ∧
      ((generatePDF 1 none (some ["http://unreachable.example/img.png"]) none
          (generateColoringBookPDF ⟨false, "", none, Except.ok "loc"⟩ "job1"
            "My Coloring Book" [ImgOutcome.resolveFail]).result).finalJob.map
        (fun j => j.status)) = some Status.completed := by
  refine ⟨by decide, by decide, rfl, by decide⟩

/-- C3: the first page of every composed document carries the cover content —
title at 28pt centered, the fixed subtitle, the page-count lines naming N
and N+1, and the static instructions block — and every successfully
processed image `j` yields a page of exactly that image and the footer
`Page j+2 of N+1`, with no condition on how many other images failed. -/
theorem c3_cover_and_footers (title : String) (outs : List ImgOutcome) :
    (∃ rest, (composePages title outs).head? =
        some (coverPage title outs.length ++ rest)) ∧
      Content.text title 28 Align.center ∈ coverPage title outs.length ∧
      Content.text "Created with Coloring Book SPA" 14 Align.center ∈
        coverPage title outs.length ∧
      Content.text ("Contains " ++ toString outs.length ++ " pages to color") 14
          Align.center ∈ coverPage title outs.length ∧
      Content.text ("Page 1 of " ++ toString (outs.length + 1)) 8 Align.center ∈
        coverPage title outs.length ∧
      Content.text "Instructions:" 12 Align.left ∈ coverPage title outs.length ∧
      ∀ (j : Nat) (hj : j < outs.length), outs.get ⟨j, hj⟩ = ImgOutcome.ok →
        okPage outs.length j ∈ composePages title outs := by
  refine ⟨?_, ?_, ?_, ?_, ?_, ?_, ?_⟩
  · exact processFrom_head outs.length outs 0 (coverPage title outs.length)
  · simp [coverPage]
  · simp [coverPage]
  · simp [coverPage]
  · simp [coverPage]
  · simp [coverPage]
  · intro j hj hok
    have h := okPage_mem_processFrom outs.length outs 0 [] (coverPage title outs.length)
      j hj hok
    simpa using h

/-- Witness for C3: in a concrete two-image run whose first image fails, the
surviving image 1 still gets its `Page 3 of 3` page. -/
theorem c3_cover_and_footers_witness :
    okPage 2 1 ∈ composePages "Test Book" [ImgOutcome.decodeFail, ImgOutcome.ok] := by
  exact (c3_cover_and_footers "Test Book" [ImgOutcome.decodeFail, ImgOutcome.ok]).2.2.2.2.2.2
    1 (by decide) rfl

/-- C4: resolution classifies a reference in fixed order, first match wins —
a `data:image` URI is decoded inline with no I/O; otherwise the URL is
parsed to a bucket/key (path-style in dev mode, virtual-hosted-style in
production) and the first I/O action is the S3 read; when that read
succeeds its bytes are the result with no further I/O, and when it throws
the resolver falls back to an HTTP GET of the same URL with a 10000 ms
timeout. -/
theorem c4_resolution_order (env : ResolveEnv) (url : String) :
    (strStartsWith url "data:image" = true →
      ∀ payload, (strSplitOnChar ',' url).get? 1 = some payload →
        resolveImage env url = (Except.ok (env.b64 payload), [])) ∧
    (strStartsWith url "data:image" = false →
      ∀ host path, parseUrl url = some (host, path) →
        (env.devMode = true →
          (resolveImage env url).2.head? =
            some (REvent.s3Get (pathStyleParse path).1 (pathStyleParse path).2)) ∧
        (env.devMode = false →
          (resolveImage env url).2.head? =
            some (REvent.s3Get
              (virtualHostedParse (env.processedBucket.getD "coloringbook-processed")
                host path).1
              (virtualHostedParse (env.processedBucket.getD "coloringbook-processed")
                host path).2)) ∧
        (∀ bytes,
          env.s3Get (parseBucketKey env host path).1 (parseBucketKey env host path).2 =
            Except.ok bytes →
          resolveImage env url =
            (Except.ok bytes,
              [REvent.s3Get (parseBucketKey env host path).1
                (parseBucketKey env host path).2])) ∧
        (∀ e,
          env.s3Get (parseBucketKey env host path).1 (parseBucketKey env host path).2 =
            Except.error e →
          resolveImage env url =
            (env.httpGet url 10000,
              [REvent.s3Get (parseBucketKey env host path).1
                  (parseBucketKey env host path).2,
                REvent.httpGet url 10000]))) := by
  constructor
  · intro hs payload hp
    rw [List.get?_eq_getElem?] at hp
    simp [resolveImage, hs, hp]
  · intro hs host path hp
    have hres : resolveImage env url =
        match env.s3Get (parseBucketKey env host path).1
            (parseBucketKey env host path).2 with
        | Except.ok bytes =>
            (Except.ok bytes,
              [REvent.s3Get (parseBucketKey env host path).1
                (parseBucketKey env host path).2])
        | Except.error _ =>
            (env.httpGet url 10000,
              [REvent.s3Get (parseBucketKey env host path).1
                  (parseBucketKey env host path).2,
                REvent.httpGet url 10000]) := by
      simp [resolveImage, hs, hp]
    refine ⟨?_, ?_, ?_, ?_⟩
    · intro hdev
      rw [hres]
      cases env.s3Get (parseBucketKey env host path).1 (parseBucketKey env host path).2 <;>
        simp [parseBucketKey, hdev]
    · intro hdev
      rw [hres]
      cases env.s3Get (parseBucketKey env host path).1 (parseBucketKey env host path).2 <;>
        simp [parseBucketKey, hdev]
    · intro bytes hok
      rw [hres, hok]
    · intro e herr
      rw [hres, herr]

/-- A concrete resolver environment for the C4 witness: dev mode, S3 always
throwing, HTTP fallback returning bytes `[7]`. -/
def c4WitnessEnv : ResolveEnv :=
  ⟨true, none, fun s => [s.length], fun _ _ => Except.error "down",
    fun _ _ => Except.ok [7]⟩

/-- Witness for C4: a LocalStack-style URL is parsed path-style, the S3 read
throws, and the HTTP fallback against the same URL with a 10 s timeout
supplies the bytes. -/
theorem c4_resolution_order_witness :
    strStartsWith "http://localhost:4566/mybucket/processed/a.png" "data:image" = false ∧
      parseUrl "http://localhost:4566/mybucket/processed/a.png" =
        some ("localhost", "/mybucket/processed/a.png") ∧
      resolveImage c4WitnessEnv "http://localhost:4566/mybucket/processed/a.png" =
        (Except.ok [7],
          [REvent.s3Get "mybucket" "processed/a.png",
            REvent.httpGet "http://localhost:4566/mybucket/processed/a.png" 10000]) := by
  refine ⟨by decide, by decide, ?_⟩
  have h := (c4_resolution_order c4WitnessEnv
      "http://localhost:4566/mybucket/processed/a.png").2 (by decide)
    "localhost" "/mybucket/processed/a.png" (by decide)
  exact (h.2.2.2 "down" rfl).trans (by decide)

/-- Whether a service event is the S3 upload of the finished PDF. -/
def isUploadEvent : GEvent → Bool
  | GEvent.s3Upload _ _ => true
  | _ => false

/-- C5 (amended): the temporary PDF file is removed when the upload succeeds
(the trace is write, upload, unlink); when the upload fails the error
propagates and no unlink happens — the temp file is left behind. -/
theorem c5_temp_cleanup (env : SvcEnv) (pdfId title : String)
    (outs : List ImgOutcome) :
    (∀ loc, env.uploadResult = Except.ok loc →
      (generateColoringBookPDF env pdfId title outs).events =
        [GEvent.writeTemp pdfId,
          GEvent.s3Upload (env.finalBucket.getD "coloringbook-final-pdfs")
            ("final-pdfs/" ++ pdfId ++ ".pdf"),
          GEvent.unlink pdfId]) ∧
    (∀ e, env.uploadResult = Except.error e →
      GEvent.unlink pdfId ∉ (generateColoringBookPDF env pdfId title outs).events) := by
  constructor
  · intro loc h
    simp [generateColoringBookPDF, h]
  · intro e h
    simp [generateColoringBookPDF, h]

/-- Witness for C5: a successful upload produces exactly write, upload,
unlink. -/
theorem c5_temp_cleanup_witness :
    (⟨false, "", none, Except.ok "loc"⟩ : SvcEnv).uploadResult = Except.ok "loc" ∧
      (generateColoringBookPDF ⟨false, "", none, Except.ok "loc"⟩ "job2" "T" []).events =
        [GEvent.writeTemp "job2",
          GEvent.s3Upload "coloringbook-final-pdfs" "final-pdfs/job2.pdf",
          GEvent.unlink "job2"] := by
  refine ⟨rfl, ?_⟩
  have h := (c5_temp_cleanup ⟨false, "", none, Except.ok "loc"⟩ "job2" "T" []).1 "loc" rfl
  simpa using h

/-- Counterexample to C5 as stated: when the upload fails, no unlink of the
temporary file ever happens in the run's trace. -/
theorem c5_counterexample :
    ¬ GEvent.unlink "job1" ∈
      (generateColoringBookPDF
        ⟨false, "", none, Except.error (JsError.errorObj "upload failed")⟩
        "job1" "T" []).events := by
  decide

/-- C6: the upload is attempted exactly once per run (no internal retry); a
failing upload's error is propagated unchanged as the service result; the
handler then marks the job failed with `message` set to the exception's
message when the thrown value is an `Error`, and to the fixed fallback
string otherwise, leaving `pdfUrl` unset. -/
theorem c6_publish_failure (env : SvcEnv) (pdfId title : String)
    (outs : List ImgOutcome) (minImages : Nat) (userId : Option String)
    (urls : List String) (reqTitle : Option String) :
    ((generateColoringBookPDF env pdfId title outs).events.filter isUploadEvent).length
        = 1 ∧
    (∀ e, env.uploadResult = Except.error e →
      (generateColoringBookPDF env pdfId title outs).result = Except.error e) ∧
    (∀ e, urls.isEmpty = false → minImages ≤ urls.length →
      (generatePDF minImages userId (some urls) reqTitle (Except.error e)).finalJob =
        some ⟨Status.failed, userId, urls, none, reqTitle.getD "My Coloring Book",
          some (errMessage e)⟩) ∧
    (∀ m, errMessage (JsError.errorObj m) = m) ∧
    errMessage JsError.other = "Unknown error" := by
  refine ⟨?_, ?_, ?_, fun m => rfl, rfl⟩
  · cases h : env.uploadResult <;>
      simp [generateColoringBookPDF, h, isUploadEvent]
  · intro e h
    simp [generateColoringBookPDF, h]
  · intro e hne hm
    simp [generatePDF, hne, Nat.not_lt.mpr hm]

/-- Witness for C6: a concrete failing upload marks the job failed with the
error's message. -/
theorem c6_publish_failure_witness :
    (⟨false, "", none,
        Except.error (JsError.errorObj "S3 write failed")⟩ : SvcEnv).uploadResult =
      Except.error (JsError.errorObj "S3 write failed") ∧
      (["a", "b"] : List String).isEmpty = false ∧ 2 ≤ (["a", "b"] : List String).length ∧
      (generatePDF 2 none (some ["a", "b"]) none
          (Except.error (JsError.errorObj "S3 write failed"))).finalJob =
        some ⟨Status.failed, none, ["a", "b"], none, "My Coloring Book",
          some "S3 write failed"⟩ := by
  refine ⟨rfl, rfl, by decide, ?_⟩
  have h := (c6_publish_failure ⟨false, "", none,
      Except.error (JsError.errorObj "S3 write failed")⟩ "p" "T" [] 2 none
      ["a", "b"] none).2.2.1 (JsError.errorObj "S3 write failed") rfl (by decide)
  simpa using h

/-- Counterexample to C7 as stated: in the handler trace of a concrete valid
submission, the 202 response carrying the job identifier is sent before the
transition to `processing` — there is no point where `processing` has been
set and the response is still to come. -/
theorem c7_counterexample :
    ¬ ∃ (i j : Fin (generatePDF 1 none (some ["a"]) none
        (Except.ok "u")).events.length),
      i.val < j.val ∧
        (generatePDF 1 none (some ["a"]) none (Except.ok "u")).events.get i =
          CEvent.setStatus Status.processing ∧
        isRespondWithJobId
          ((generatePDF 1 none (some ["a"]) none (Except.ok "u")).events.get j) =
          true := by
  decide

/-- C7 (amended): a valid submission creates the job in `pending`, sends the
202 response carrying the job identifier, and then — still in the same tick,
with no suspension point before it — sets the job to `processing`, so
polling never observes `pending`; the status transitions of the run are
exactly `processing` followed by one terminal status (`completed` on
success, `failed` on error), and nothing follows the terminal transition. -/
theorem c7_lifecycle (minImages : Nat) (userId : Option String)
    (urls : List String) (title : Option String)
    (genResult : Except JsError String)
    (hne : urls.isEmpty = false) (hmin : minImages ≤ urls.length) :
    (generatePDF minImages userId (some urls) title genResult).events.take 3 =
        [CEvent.createJob Status.pending, CEvent.respond 202 true,
          CEvent.setStatus Status.processing] ∧
      CEvent.awaitGenerate ∉
        (generatePDF minImages userId (some urls) title genResult).events.take 3 ∧
      statusEvents (generatePDF minImages userId (some urls) title genResult).events =
        [Status.processing,
          match genResult with
          | Except.ok _ => Status.completed
          | Except.error _ => Status.failed] ∧
      ((generatePDF minImages userId (some urls) title
          genResult).jobSnapshots.head?.map Job.status) = some Status.pending := by
  cases genResult <;>
    simp [generatePDF, hne, Nat.not_lt.mpr hmin, statusEvents]

/-- Witness for C7: the trace of a concrete successful run. -/
theorem c7_lifecycle_witness :
    (["a"] : List String).isEmpty = false ∧ 1 ≤ (["a"] : List String).length ∧
      statusEvents (generatePDF 1 none (some ["a"]) none (Except.ok "u")).events =
        [Status.processing, Status.completed] := by
  refine ⟨rfl, by decide, ?_⟩
  exact (c7_lifecycle 1 none ["a"] none (Except.ok "u") rfl (by decide)).2.2.1

/-- The mutual-exclusion / terminal-only invariant of C8 on one job record. -/
def jobInvariant (j : Job) : Prop :=
  (j.pdfUrl.isSome = true → j.status = Status.completed) ∧
  (j.message.isSome = true → j.status = Status.failed) ∧
  ¬ (j.pdfUrl.isSome = true ∧ j.message.isSome = true)

/-- C8: every job record the handler ever stores satisfies the invariant —
`pdfUrl` only in `completed`, `message` only in `failed`, never both — and
the poll response carries `pdfUrl` only when the polled job is
`completed`. -/
theorem c8_result_error_exclusive (minImages : Nat) (userId : Option String)
    (imageUrls : Option (List String)) (title : Option String)
    (genResult : Except JsError String) :
    (∀ j ∈ (generatePDF minImages userId imageUrls title genResult).jobSnapshots,
      jobInvariant j) ∧
    (∀ (jobId : String) (lookup : String → Option Job) (r : PollResponse),
      (getPdfStatus jobId lookup).2 = some r → r.pdfUrl.isSome = true →
        (lookup jobId).map Job.status = some Status.completed) := by
  constructor
  · intro j hj
    cases imageUrls with
    | none => simp [generatePDF] at hj
    | some urls =>
        by_cases h1 : urls.isEmpty
        · simp [generatePDF, h1] at hj
        · by_cases h2 : urls.length < minImages
          · simp [generatePDF, h1, h2] at hj
          · cases genResult with
            | ok url =>
                simp [generatePDF, h1, h2] at hj
                rcases hj with rfl | rfl | rfl <;> simp [jobInvariant]
            | error e =>
                simp [generatePDF, h1, h2] at hj
                rcases hj with rfl | rfl | rfl <;> simp [jobInvariant]
  · intro jobId lookup r hr hsome
    by_cases hid : jobId = ""
    · simp [getPdfStatus, hid] at hr
    · cases hl : lookup jobId with
      | none => simp [getPdfStatus, hid, hl] at hr
      | some j =>
          simp [getPdfStatus, hid, hl] at hr
          subst hr
          by_cases hc : j.status = Status.completed
          · simp [hl, hc]
          · simp [hc] at hsome


/-- Witness for C8: the invariant at the completed snapshot of a concrete
run, and a concrete poll. -/
theorem c8_result_error_exclusive_witness :
    (⟨Status.completed, none, ["a"], some "u", "My Coloring Book", none⟩ : Job) ∈
        (generatePDF 1 none (some ["a"]) none (Except.ok "u")).jobSnapshots ∧
      jobInvariant ⟨Status.completed, none, ["a"], some "u", "My Coloring Book", none⟩ := by
  refine ⟨by decide, ?_⟩
  exact (c8_result_error_exclusive 1 none (some ["a"]) none (Except.ok "u")).1
    ⟨Status.completed, none, ["a"], some "u", "My Coloring Book", none⟩ (by decide)

/-- C9: submitting an empty image list (or a missing/non-array field) is
rejected synchronously with a 400 validation response; no job record is ever
created (no snapshot, no final job), and the response carries no job
identifier. -/
theorem c9_empty_rejected (minImages : Nat) (userId : Option String)
    (title : Option String) (genResult : Except JsError String) :
    generatePDF minImages userId (some []) title genResult =
        ⟨400, "No image URLs provided", none, [], [CEvent.respond 400 false]⟩ ∧
      generatePDF minImages userId none title genResult =
        ⟨400, "No image URLs provided", none, [], [CEvent.respond 400 false]⟩ :=
  ⟨rfl, rfl⟩

/-- C10: a non-empty submission with fewer than `MIN_IMAGES_REQUIRED` images
is rejected with a 400 response stating the minimum, and no job record is
created; the threshold parses from the environment and defaults to 8. -/
theorem c10_min_images (minImages : Nat) (userId : Option String)
    (urls : List String) (title : Option String)
    (genResult : Except JsError String)
    (hne : urls ≠ []) (hlt : urls.length < minImages) :
    generatePDF minImages userId (some urls) title genResult =
        ⟨400, "At least " ++ toString minImages ++
            " images are required to create a coloring book",
          none, [], [CEvent.respond 400 false]⟩ ∧
      minImagesRequired none = some 8 := by
  constructor
  · cases urls with
    | nil => exact absurd rfl hne
    | cons a l =>
        simp [generatePDF, hlt]
        intro hle
        exact absurd hlt (Nat.not_lt.mpr hle)
  · decide

/-- Witness for C10: three images with the default threshold of 8 are
refused. -/
theorem c10_min_images_witness :
    (["a", "b", "c"] : List String) ≠ [] ∧ (["a", "b", "c"] : List String).length < 8 ∧
      generatePDF 8 none (some ["a", "b", "c"]) none (Except.ok "u") =
        ⟨400, "At least 8 images are required to create a coloring book",
          none, [], [CEvent.respond 400 false]⟩ := by
  refine ⟨by decide, by decide, ?_⟩
  have h := (c10_min_images 8 none ["a", "b", "c"] none (Except.ok "u")
    (by decide) (by decide)).1
  exact h.trans (by decide)

end ColoringBook
